import Mathlib

/-!
Shallow embedding of the FriendAI backend (src/backend/server.js together with
src/backend/storage.js), covering the in-memory storage mode — the mode whose
code is fully present in the repository (the MongoDB branches delegate to the
Mongoose library).  Timestamps that the source only ever compares at calendar-day
granularity (journal `created_at`, habit completion `date`) are modelled as the
integer UTC day index produced by `toISOString().split('T')[0]`; task due dates,
which the source compares at millisecond granularity, are modelled as integer
millisecond timestamps.
-/

namespace FriendAI

/-- Milliseconds per day, the divisor in the source's streak arithmetic
(`1000 * 60 * 60 * 24`). -/
def dayMs : Int := 86400000

/-- Character-list prefix test, the semantics of JavaScript
`String.prototype.startsWith` restricted to exact characters. -/
def listStart : List Char → List Char → Bool
  | [], _ => true
  | _ :: _, [] => false
  | a :: as, b :: bs => a == b && listStart as bs

/-- JavaScript `s.startsWith(p)`; also the semantics of the anchored regular
expression `^p` for a literal `p`, as used by the `TASK_COMPLETED:` query. -/
def jsStartsWith (s p : String) : Bool := listStart p.data s.data

/-- JavaScript `s.includes(w)`: substring containment. -/
def jsIncludes (s w : String) : Bool :=
  (List.range (s.data.length + 1)).any (fun i => listStart w.data (s.data.drop i))

/-- JavaScript `s.toLowerCase()` on the ASCII text handled by the word lists. -/
def jsLower (s : String) : String := s.map Char.toLower

/-- JavaScript `Math.round`, which equals `floor (x + 1/2)` on the rationals. -/
def jsRound (q : Rat) : Int := Rat.floor (q + (1 : Rat) / 2)

/-- The source's `Math.round(x * 10) / 10` rounding of averages. -/
def jsRoundTenth (q : Rat) : Rat := ((jsRound (q * 10) : Int) : Rat) / 10

/-- Ascending sort of integer day indices: the source sorts the ISO
`YYYY-MM-DD` day strings with the default lexicographic `Array.sort`, which
orders them chronologically. -/
def sortIntAsc (l : List Int) : List Int := List.insertionSort (fun a b => a ≤ b) l

/-- The habit route's `.sort().reverse()` (server.js:1147-1150): completion day
strings sorted descending. -/
def sortIntDesc (l : List Int) : List Int := (sortIntAsc l).reverse

/-- Error outcomes surfaced by the routes modelled here: 404 `Habit/Goal/Task
not found` and 400 `Habit already completed today` (the ConflictError). -/
inductive ApiErr
  | notFound
  | conflict
deriving Repr, DecidableEq

/-- JournalEntry (models.js:32-57): `created_day` is the UTC day of
`created_at`, the only granularity at which the source compares it. -/
structure JournalEntry where
  user_id : String
  transcription : String
  mood_score : Option Int
  created_day : Int
deriving Repr, DecidableEq

/-- Detects the synthetic task-completion bookkeeping entries:
`entry.transcription.startsWith('TASK_COMPLETED:')` in server.js:530, and the
anchored regex query of server.js:523. -/
def isSyntheticEntry (e : JournalEntry) : Bool :=
  jsStartsWith e.transcription "TASK_COMPLETED:"

/-- JavaScript truthiness of `entry.mood_score` as used by the dashboard's
`filter(entry => entry.mood_score)` (server.js:536). -/
def jsTruthy : Option Int → Bool
  | none => false
  | some m => !(m == 0)

/-- Task (models.js:60-103); `due_date` is a millisecond timestamp or null. -/
structure Task where
  user_id : String
  title : String
  description : String
  due_date : Option Int
  priority : String
  completed : Bool
  created_at : Int
deriving Repr, DecidableEq

/-- Partial update body of `PUT /api/tasks/:id` (server.js:795-845): the fields
of the task schema that the merge `{ ...updates }` may overwrite. -/
structure TaskPatch where
  title : Option String := none
  description : Option String := none
  due_date : Option (Option Int) := none
  priority : Option String := none
  completed : Option Bool := none
deriving Repr, DecidableEq

/-- `Object.assign(task, updates)` of StorageAdapter.updateTask
(storage.js:195-199), applied functionally. -/
def applyTaskPatch (t : Task) (p : TaskPatch) : Task :=
  { user_id := t.user_id
    title := p.title.getD t.title
    description := p.description.getD t.description
    due_date := p.due_date.getD t.due_date
    priority := p.priority.getD t.priority
    completed := p.completed.getD t.completed
    created_at := t.created_at }

/-- The in-memory task map (storage.js:10), in insertion order. -/
abbrev TaskStore := List (String × Task)

/-- StorageAdapter.findTask in-memory branch (storage.js:159-173): lookup by
`_id`, then an ownership check when the query carries `user_id`. -/
def findTaskMem (store : TaskStore) (id : String) (user : Option String) : Option Task :=
  match store.find? (fun kv => kv.fst == id) with
  | some kv => if user.all (fun u => kv.snd.user_id == u) then some kv.snd else none
  | none => none

/-- StorageAdapter.updateTask in-memory branch (storage.js:188-202): lookup by
id only (no ownership filter), merge, store back. -/
def updateTaskMem (store : TaskStore) (id : String) (p : TaskPatch) :
    Option Task × TaskStore :=
  match store.find? (fun kv => kv.fst == id) with
  | some kv =>
    let t' := applyTaskPatch kv.snd p
    (some t', store.map (fun kv' => if kv'.fst == id then (kv'.fst, t') else kv'))
  | none => (none, store)

/-- The synthetic journal entry written when a task transitions to completed
(server.js:822-832): `TASK_COMPLETED: ` followed by the task title, mood 8. -/
def taskDoneEntry (user title : String) (now : Int) : JournalEntry :=
  { user_id := user
    transcription := "TASK_COMPLETED: " ++ title
    mood_score := some 8
    created_day := now }

/-- Result of `PUT /api/tasks/:id`: response outcome plus the two collections
the handler may write. -/
structure TaskUpdateResult where
  outcome : Except ApiErr Task
  tasks : TaskStore
  journal : List JournalEntry
deriving Repr

/-- `PUT /api/tasks/:id` (server.js:795-845): read the current task scoped to
the session user, merge the update, and append a `TASK_COMPLETED:` journal
entry exactly when `completed` transitions false → strict `true`. -/
def taskUpdateRoute (store : TaskStore) (journal : List JournalEntry)
    (user id : String) (p : TaskPatch) (now : Int) : TaskUpdateResult :=
  match findTaskMem store id (some user) with
  | none => ⟨.error .notFound, store, journal⟩
  | some t =>
    let r := updateTaskMem store id p
    let t' := r.fst.getD t
    let journal' :=
      if !t.completed && p.completed == some true then
        journal ++ [taskDoneEntry user t'.title now]
      else journal
    ⟨.ok t', r.snd, journal'⟩

/-- Sort key of the dashboard's `findTasks(..., { sort: { due_date: 1 } })` in
the in-memory comparator `a[k] > b[k] ? 1 : -1` (storage.js:150-153), where a
null due date is coerced to the number 0. -/
def dueKey (t : Task) : Int := t.due_date.getD 0

/-- Tasks sorted ascending by due date, as delivered to the dashboard handler
(server.js:514-517). -/
def sortTasksByDue (tasks : List Task) : List Task :=
  List.insertionSort (fun a b => dueKey a ≤ dueKey b) tasks

/-- The filter of the dashboard's upcoming-task computation (server.js:589-595):
a present due date, `taskDate <= threeDaysFromNow`, and not completed.  There is
no lower bound on the due date. -/
def upcomingPred (now : Int) (t : Task) : Bool :=
  match t.due_date with
  | none => false
  | some d => decide (d ≤ now + 3 * dayMs) && !t.completed

/-- `upcomingTasks` of `GET /api/dashboard` (server.js:588-595): filter the
due-date-ascending task list, then `.slice(0, 5)`. -/
def upcomingTasksOf (now : Int) (tasks : List Task) : List Task :=
  ((sortTasksByDue tasks).filter (upcomingPred now)).take 5

/-- Body of the dashboard streak loop (server.js:554-566).  Arguments: the day
of the previous scanned entry (none at index 0), the walking check date, the
current index `i`, the streak accumulator, and the remaining entry days (sorted
descending).  On a match the streak is set to `i + 1` unless the entry shares
its day with the previous entry, and the check date always steps back one day. -/
def dashWalk : Option Int → Int → Nat → Nat → List Int → Nat
  | _, _, _, streak, [] => streak
  | prevDay, check, i, streak, d :: rest =>
    if d = check then
      let streak' := if prevDay = some d then streak else i + 1
      dashWalk (some d) (check - 1) (i + 1) streak' rest
    else streak

/-- The dashboard's `sortedEntries` (server.js:551): genuine entries sorted by
`created_at` descending.  Day granularity is faithful here because the loop
only ever inspects the entry's calendar day. -/
def sortEntriesDesc (entries : List JournalEntry) : List JournalEntry :=
  List.insertionSort (fun a b => b.created_day ≤ a.created_day) entries

/-- `currentStreak` of `GET /api/dashboard` (server.js:541-567): 0 without an
entry today, otherwise the entry-indexed walk over the descending-sorted
genuine entries starting from streak 1. -/
def currentStreakOf (today : Int) (entries : List JournalEntry) : Nat :=
  if entries.any (fun e => e.created_day == today) then
    dashWalk none today 0 1 ((sortEntriesDesc entries).map (fun e => e.created_day))
  else 0

/-- Sum of the mood scores of a list of entries, as accumulated by
`reduce((sum, entry) => sum + entry.mood_score, 0)`. -/
def moodSum (l : List JournalEntry) : Int :=
  (l.map (fun e => e.mood_score.getD 0)).sum

/-- The `stats` block of the dashboard response that the claims inspect
(server.js:726-736). -/
structure DashStats where
  totalSessions : Nat
  currentStreak : Nat
  averageMood : Rat
  completedTasks : Nat
deriving Repr, DecidableEq

/-- The dashboard stats computation (server.js:519-567 and 726-736): synthetic
`TASK_COMPLETED:` entries are counted by the regex query into
`completedTasks` and filtered out of `realJournalEntries` before the session
count, the mood average and the streak; completed tasks are added to
`completedTasks`. -/
def dashboardStats (today : Int) (entries : List JournalEntry) (tasks : List Task) :
    DashStats :=
  let doneEntries := entries.filter isSyntheticEntry
  let doneTasks := (tasks.filter (fun t => t.completed)).length
  let realEntries := entries.filter (fun e => !(isSyntheticEntry e))
  let moodEntries := realEntries.filter (fun e => jsTruthy e.mood_score)
  let avg : Rat :=
    if 0 < moodEntries.length then
      ((moodSum moodEntries : Int) : Rat) / (moodEntries.length : Rat)
    else 0
  { totalSessions := realEntries.length
    currentStreak := currentStreakOf today realEntries
    averageMood := jsRoundTenth avg
    completedTasks := doneEntries.length + doneTasks }

/-- The mood scores the analytics route aggregates (server.js:892-899 and 949):
the storage query keeps entries with `mood_score !== null`, and the route maps
them to their scores.  No transcription (prefix) condition is applied. -/
def moodScoresOf (entries : List JournalEntry) : List Int :=
  entries.filterMap (fun e => e.mood_score)

/-- The `stats` block of `GET /api/mood/analytics` (server.js:948-965). -/
structure MoodStats where
  average : Rat
  highest : Int
  lowest : Int
  totalEntries : Nat
deriving Repr, DecidableEq

/-- `Math.min(...scores)` over a nonempty score list; 0 is never consulted for
the empty case because the route guards on length. -/
def minList : List Int → Int
  | [] => 0
  | x :: xs => xs.foldl min x

/-- All-time statistics of `GET /api/mood/analytics` (server.js:948-965):
average (rounded to one decimal), `Math.max(...scores, 0)`, minimum when
nonempty, and the score count. -/
def moodAnalyticsStats (entries : List JournalEntry) : MoodStats :=
  let scores := moodScoresOf entries
  { average :=
      if 0 < scores.length then
        jsRoundTenth ((scores.sum : Rat) / (scores.length : Rat))
      else 0
    highest := scores.foldl max 0
    lowest := if 0 < scores.length then minList scores else 0
    totalEntries := scores.length }

/-- Goal (models.js:111-165), restricted to the fields the claims touch. -/
structure Goal where
  user_id : String
  title : String
  description : String
  progress : Int
  status : String
deriving Repr, DecidableEq

/-- Partial update body of `PUT /api/goals/:id` (server.js:1017-1033). -/
structure GoalPatch where
  title : Option String := none
  description : Option String := none
  progress : Option Int := none
  status : Option String := none
deriving Repr, DecidableEq

/-- `Object.assign(goal, updates)` of StorageAdapter.updateGoal
(storage.js:272-277), applied functionally. -/
def applyGoalPatch (g : Goal) (p : GoalPatch) : Goal :=
  { user_id := g.user_id
    title := p.title.getD g.title
    description := p.description.getD g.description
    progress := p.progress.getD g.progress
    status := p.status.getD g.status }

/-- The in-memory goal map (storage.js:11), in insertion order. -/
abbrev GoalStore := List (String × Goal)

/-- StorageAdapter.updateGoal in-memory branch (storage.js:266-279): lookup by
id only — the query carries no user reference and no ownership check is made. -/
def updateGoalMem (store : GoalStore) (id : String) (p : GoalPatch) :
    Option Goal × GoalStore :=
  match store.find? (fun kv => kv.fst == id) with
  | some kv =>
    let g' := applyGoalPatch kv.snd p
    (some g', store.map (fun kv' => if kv'.fst == id then (kv'.fst, g') else kv'))
  | none => (none, store)

/-- Result of `PUT /api/goals/:id`. -/
structure GoalUpdateResult where
  outcome : Except ApiErr Goal
  goals : GoalStore
deriving Repr

/-- `PUT /api/goals/:id` (server.js:1017-1033): the handler passes only the
route id and the body to `storage.updateGoal`; the session user `_user` is
never consulted, so ownership is not checked. -/
def goalUpdateRoute (store : GoalStore) (_user id : String) (p : GoalPatch) :
    GoalUpdateResult :=
  let r := updateGoalMem store id p
  match r.fst with
  | none => ⟨.error .notFound, r.snd⟩
  | some g => ⟨.ok g, r.snd⟩

/-- One habit completion record (models.js:198-201): its date at the UTC-day
granularity at which the source compares it. -/
structure Completion where
  date : Int
  notes : Option String
deriving Repr, DecidableEq

/-- The habit streak record (models.js:194-197). -/
structure Streak where
  current : Int
  longest : Int
deriving Repr, DecidableEq

/-- Habit (models.js:168-214), restricted to the fields the claims touch. -/
structure Habit where
  user_id : String
  name : String
  streak : Streak
  completions : List Completion
  active : Bool
deriving Repr, DecidableEq

/-- The in-memory habit map (storage.js:12), in insertion order. -/
abbrev HabitStore := List (String × Habit)

/-- Query object passed to StorageAdapter.findHabits. -/
structure HabitQuery where
  idQ : Option String := none
  userQ : Option String := none
  activeQ : Option Bool := none

/-- StorageAdapter.findHabits in-memory branch (storage.js:298-328): the map is
materialised in insertion order and filtered by `user_id` and `active`.  The
`_id` key of the query (`idQ`) has no corresponding branch and is ignored. -/
def findHabitsMem (store : HabitStore) (q : HabitQuery) : List Habit :=
  let habits := store.map Prod.snd
  let habits :=
    match q.userQ with
    | some u => habits.filter (fun h => h.user_id == u)
    | none => habits
  match q.activeQ with
  | some a => habits.filter (fun h => h.active == a)
  | none => habits

/-- The fields `POST /api/habits/:id/complete` writes through
`storage.updateHabit` (server.js:1167-1171). -/
structure HabitPatch where
  completions : Option (List Completion) := none
  streak : Option Streak := none
deriving Repr

/-- `Object.assign(habit, updates)` of StorageAdapter.updateHabit
(storage.js:348-352), applied functionally. -/
def applyHabitPatch (h : Habit) (p : HabitPatch) : Habit :=
  { h with
    completions := p.completions.getD h.completions
    streak := p.streak.getD h.streak }

/-- StorageAdapter.updateHabit in-memory branch (storage.js:342-355): lookup by
id only (no ownership filter), merge, store back. -/
def updateHabitMem (store : HabitStore) (id : String) (p : HabitPatch) :
    Option Habit × HabitStore :=
  match store.find? (fun kv => kv.fst == id) with
  | some kv =>
    let h' := applyHabitPatch kv.snd p
    (some h', store.map (fun kv' => if kv'.fst == id then (kv'.fst, h') else kv'))
  | none => (none, store)

/-- Inner loop of the habit streak recomputation (server.js:1152-1163), walking
the completion days sorted descending: a gap of exactly one day extends the
streak, a larger gap stops it, and a zero gap (duplicate day) is skipped. -/
def habitWalk : Int → List Int → Nat
  | _, [] => 0
  | prev, d :: rest =>
    if prev - d = 1 then 1 + habitWalk d rest
    else if 1 < prev - d then 0
    else habitWalk d rest

/-- `currentStreak` of the habit-complete handler (server.js:1152-1163):
initialised to 1, then extended by the walk. -/
def habitStreakOf : List Int → Nat
  | [] => 1
  | d :: rest => 1 + habitWalk d rest

/-- Result of `POST /api/habits/:id/complete`; the success payload is the
(possibly null) value returned by `storage.updateHabit`. -/
structure HabitCompleteResult where
  outcome : Except ApiErr (Option Habit)
  habits : HabitStore
deriving Repr

/-- `POST /api/habits/:id/complete` (server.js:1116-1178), in-memory mode: the
candidate habit is `findHabits({_id, user_id})[0]` — which, because
`findHabitsMem` ignores `idQ`, is the session user's first habit; the
duplicate-day check, the appended completion and the streak recomputation all
use that habit, while the write goes to the habit with the route id. -/
def completeHabitRoute (store : HabitStore) (user id : String)
    (notes : Option String) (today : Int) : HabitCompleteResult :=
  match findHabitsMem store { idQ := some id, userQ := some user } with
  | [] => ⟨.error .notFound, store⟩
  | habit :: _ =>
    if habit.completions.any (fun c => c.date == today) then
      ⟨.error .conflict, store⟩
    else
      let completions := habit.completions ++ [⟨today, notes⟩]
      let days := sortIntDesc (completions.map (fun c => c.date))
      let current := habitStreakOf days
      let longest := max (current : Int) habit.streak.longest
      let r := updateHabitMem store id
        { completions := some completions, streak := some ⟨(current : Int), longest⟩ }
      ⟨.ok r.fst, r.snd⟩

/-- Positive sentiment word list of the AI fallback (server.js:421). -/
def positiveWords : List String :=
  ["good", "great", "amazing", "wonderful", "happy",
   "excited", "proud", "accomplished", "successful", "joy"]

/-- Negative sentiment word list of the AI fallback (server.js:422). -/
def negativeWords : List String :=
  ["bad", "terrible", "awful", "sad", "depressed",
   "angry", "frustrated", "stressed", "worried", "difficult"]

/-- Mood score of the deterministic fallback (server.js:424-439): keyword
counts over the lower-cased transcription, clamped towards the middle. -/
def fallbackMoodScore (transcription : String) : Int :=
  let lower := jsLower transcription
  let p := (positiveWords.filter (fun w => jsIncludes lower w)).length
  let n := (negativeWords.filter (fun w => jsIncludes lower w)).length
  if n < p then min 9 (6 + (p : Int))
  else if p < n then max 2 (5 - (n : Int))
  else 5

/-- The canned suggestion set of the fallback response (server.js:444-448). -/
def fallbackSuggestionList : List String :=
  ["Take a few minutes for deep breathing or meditation",
   "Write down three things you're grateful for today",
   "Plan one enjoyable activity for tomorrow"]

/-- Follows the spec's words for C5: the mood scores of genuine entries — those
whose transcription does not start with `TASK_COMPLETED:` — that have a
non-null mood score.  Stated for comparison with `moodScoresOf`, which the
route actually aggregates. -/
def specGenuineMoodScores (entries : List JournalEntry) : List Int :=
  (entries.filter (fun e => !(isSyntheticEntry e))).filterMap (fun e => e.mood_score)

/-- Follows the spec's words for C7: a due date within 3 days of now, read
generously as at most three days away in either direction. -/
def specWithinThreeDays (now d : Int) : Prop :=
  now - 3 * dayMs ≤ d ∧ d ≤ now + 3 * dayMs

instance (now d : Int) : Decidable (specWithinThreeDays now d) :=
  inferInstanceAs (Decidable (now - 3 * dayMs ≤ d ∧ d ≤ now + 3 * dayMs))

/-- Fuelled day walk for the spec's reading of the dashboard streak (C8):
starting from a date, count consecutive days for which some entry exists,
stopping at the first gap.  The fuel bounds the walk by the entry count, which
also bounds any such streak. -/
def specDayWalk (days : List Int) : Nat → Int → Nat
  | 0, _ => 0
  | fuel + 1, d => if days.contains d then 1 + specDayWalk days fuel (d - 1) else 0

/-- Follows the spec's words for C8: the number of consecutive calendar days,
starting from today and walking backward one day at a time, on which at least
one entry exists. -/
def specDayStreak (today : Int) (days : List Int) : Nat :=
  specDayWalk days days.length today

/-- A list starts with itself followed by anything. -/
theorem listStart_self_append (l rest : List Char) : listStart l (l ++ rest) = true := by
  induction l with
  | nil => rfl
  | cons a as ih => simp [listStart, ih]

/-- The journal entry written on task completion carries the
`TASK_COMPLETED:` sentinel, whatever the task title. -/
theorem taskDoneEntry_synthetic (user title : String) (now : Int) :
    isSyntheticEntry (taskDoneEntry user title now) = true := by
  show listStart "TASK_COMPLETED:".data ("TASK_COMPLETED: " ++ title).data = true
  have hd : ("TASK_COMPLETED: " : String).data = "TASK_COMPLETED:".data ++ [' '] := by
    decide
  have h : ("TASK_COMPLETED: " ++ title).data =
      "TASK_COMPLETED:".data ++ ([' '] ++ title.data) := by
    rw [String.data_append, hd, List.append_assoc]
  rw [h]
  exact listStart_self_append _ _

/-- The habit streak recomputation never returns 0. -/
theorem habitStreakOf_pos (l : List Int) : 1 ≤ habitStreakOf l := by
  cases l <;> simp [habitStreakOf]

/-- The seed of a `foldl max` is a lower bound of the result. -/
theorem le_foldl_max (l : List Int) : ∀ a : Int, a ≤ l.foldl max a := by
  induction l with
  | nil => intro a; exact le_refl a
  | cons x xs ih =>
    intro a
    calc a ≤ max a x := le_max_left a x
    _ ≤ xs.foldl max (max a x) := ih (max a x)

instance : IsTotal Task (fun a b => dueKey a ≤ dueKey b) :=
  ⟨fun a b => le_total (dueKey a) (dueKey b)⟩

instance : IsTrans Task (fun a b => dueKey a ≤ dueKey b) :=
  ⟨fun _ _ _ hab hbc => le_trans hab hbc⟩

/-- C1: the update routes are not scoped by the session user.  Alice's goal
`g1` is modified by a request from Bob's session and the route answers with
the updated record instead of not-found, contradicting the claim that a
cross-user update leaves the record unchanged and reports not-found. -/
theorem c1_goal_update_ignores_owner :
    goalUpdateRoute [("g1", ⟨"alice", "Run a marathon", "", 0, "active"⟩)]
        "bob" "g1" { title := some "hacked" } =
      ⟨.ok ⟨"alice", "hacked", "", 0, "active"⟩,
       [("g1", ⟨"alice", "hacked", "", 0, "active"⟩)]⟩ ∧
    ("alice" : String) ≠ "bob" :=
  ⟨rfl, by decide⟩

/-- C2: in in-memory mode the duplicate-day check consults
`findHabits({_id, user_id})[0]`, which is the user's first habit because the
`_id` filter is ignored.  Habit `h2` already has a completion dated 100, yet
completing `h2` on day 100 succeeds instead of failing with a conflict. -/
theorem c2_duplicate_completion_not_rejected :
    (completeHabitRoute
        [("h1", ⟨"u", "water", ⟨0, 0⟩, [], true⟩),
         ("h2", ⟨"u", "run", ⟨1, 1⟩, [⟨100, none⟩], true⟩)]
        "u" "h2" none 100).outcome =
      .ok (some ⟨"u", "run", ⟨1, 1⟩, [⟨100, none⟩], true⟩) ∧
    (Habit.completions ⟨"u", "run", ⟨1, 1⟩, [⟨100, none⟩], true⟩).any
        (fun c => c.date == 100) = true :=
  ⟨rfl, rfl⟩

/-- C3: completing `h2` stores completions that form exactly 2 consecutive
days ending today (99, 100), so the claim requires longest = max(2, 7) = 7
(7 being h2's previously stored longest); the code instead stores longest 10,
inherited from the user's first habit `h1` via the ignored `_id` filter. -/
theorem c3_longest_from_wrong_habit :
    (completeHabitRoute
        [("h1", ⟨"u", "water", ⟨1, 10⟩, [⟨99, none⟩], true⟩),
         ("h2", ⟨"u", "run", ⟨0, 7⟩, [], true⟩)]
        "u" "h2" none 100).outcome =
      .ok (some ⟨"u", "run", ⟨2, 10⟩, [⟨99, none⟩, ⟨100, none⟩], true⟩) ∧
    (10 : Int) ≠ max 2 7 :=
  ⟨rfl, by decide⟩

/-- C5 counterexample: a synthetic `TASK_COMPLETED:` entry with mood 8 is the
sole entry; the spec's genuine-entry score list is empty, yet the route's
all-time statistics count it (totalEntries 1, highest and lowest 8). -/
theorem c5_synthetic_mood_counted :
    (moodAnalyticsStats [⟨"u", "TASK_COMPLETED: write report", some 8, 0⟩]).totalEntries = 1 ∧
    (moodAnalyticsStats [⟨"u", "TASK_COMPLETED: write report", some 8, 0⟩]).highest = 8 ∧
    (moodAnalyticsStats [⟨"u", "TASK_COMPLETED: write report", some 8, 0⟩]).lowest = 8 ∧
    specGenuineMoodScores [⟨"u", "TASK_COMPLETED: write report", some 8, 0⟩] = [] :=
  ⟨rfl, rfl, rfl, rfl⟩

/-- C7 counterexample: a task overdue by ten days is not within 3 days of now
(on any reading), yet the dashboard lists it among upcoming tasks, because the
filter has no lower bound on the due date. -/
theorem c7_overdue_task_listed_as_upcoming :
    upcomingTasksOf 0 [⟨"u", "old report", "", some (-10 * dayMs), "medium", false, 0⟩] =
      [⟨"u", "old report", "", some (-10 * dayMs), "medium", false, 0⟩] ∧
    ¬ specWithinThreeDays 0 (-10 * dayMs) :=
  ⟨rfl, by decide⟩

/-- C8: with two genuine entries today and one yesterday the walk terminates
at the second same-day entry (the check date has already moved past it), so
the code reports a streak of 1 while the consecutive-day count of the spec's
walk is 2. -/
theorem c8_second_entry_same_day_breaks_walk :
    currentStreakOf 100
        [⟨"u", "morning note", some 5, 100⟩,
         ⟨"u", "evening note", some 6, 100⟩,
         ⟨"u", "yesterday note", some 7, 99⟩] = 1 ∧
    specDayStreak 100 [100, 100, 99] = 2 :=
  ⟨rfl, rfl⟩

/-- C10 counterexample: habit `h2` has stored longest streak 100; completing
it reads the user's first habit `h1` (longest 0) and stores streak
{current 1, longest 1} on `h2`, decreasing its stored longest streak. -/
theorem c10_longest_streak_can_decrease :
    (completeHabitRoute
        [("h1", ⟨"u", "water", ⟨0, 0⟩, [], true⟩),
         ("h2", ⟨"u", "run", ⟨5, 100⟩, [], true⟩)]
        "u" "h2" none 50).outcome =
      .ok (some ⟨"u", "run", ⟨1, 1⟩, [⟨50, none⟩], true⟩) ∧
    (1 : Int) < 100 :=
  ⟨rfl, by decide⟩

/-- C9: whatever the journal text, the deterministic fallback's mood score is
an integer between 1 and 10 and its suggestion set is nonempty; the embedding
is a total function, so the path cannot raise. -/
theorem c9_fallback_mood_bounded (transcription : String) :
    1 ≤ fallbackMoodScore transcription ∧
    fallbackMoodScore transcription ≤ 10 ∧
    fallbackSuggestionList ≠ [] := by
  have hb : 1 ≤ fallbackMoodScore transcription ∧ fallbackMoodScore transcription ≤ 10 := by
    simp only [fallbackMoodScore]
    split_ifs <;> constructor <;> omega
  exact ⟨hb.1, hb.2, by decide⟩

/-- C4: prepending a synthetic `TASK_COMPLETED:` entry to a user's journal
leaves the dashboard's totalSessions, currentStreak and averageMood unchanged
and increases completedTasks by exactly one. -/
theorem c4_synthetic_entry_only_counts_completed
    (today : Int) (entries : List JournalEntry) (tasks : List Task)
    (e : JournalEntry) (h : isSyntheticEntry e = true) :
    dashboardStats today (e :: entries) tasks =
      { dashboardStats today entries tasks with
        completedTasks := (dashboardStats today entries tasks).completedTasks + 1 } := by
  simp only [dashboardStats, List.filter_cons, h, Bool.not_true, if_true, if_false,
    List.length_cons, Bool.false_eq_true, reduceIte]
  congr 1
  omega

/-- C4 witness: the theorem at a singleton synthetic entry. -/
theorem c4_synthetic_entry_only_counts_completed_check :
    isSyntheticEntry ⟨"u", "TASK_COMPLETED: x", some 8, 0⟩ = true ∧
    dashboardStats 0 [⟨"u", "TASK_COMPLETED: x", some 8, 0⟩] [] =
      { dashboardStats 0 ([] : List JournalEntry) ([] : List Task) with
        completedTasks := (dashboardStats 0 [] []).completedTasks + 1 } :=
  ⟨rfl, c4_synthetic_entry_only_counts_completed 0 [] [] _ rfl⟩

/-- C5 amended: the all-time mood statistics range over every entry with a
non-null mood score; in particular a synthetic `TASK_COMPLETED:` entry with
score m enters the aggregated score list, increments totalEntries, and bounds
the reported maximum from below. -/
theorem c5_all_nonnull_scores_counted
    (entries : List JournalEntry) (e : JournalEntry) (m : Int)
    (hs : isSyntheticEntry e = true) (hm : e.mood_score = some m) :
    moodScoresOf (e :: entries) = m :: moodScoresOf entries ∧
    (moodAnalyticsStats (e :: entries)).totalEntries =
      (moodAnalyticsStats entries).totalEntries + 1 ∧
    m ≤ (moodAnalyticsStats (e :: entries)).highest := by
  have h1 : moodScoresOf (e :: entries) = m :: moodScoresOf entries := by
    simp [moodScoresOf, hm]
  refine ⟨h1, ?_, ?_⟩
  · simp [moodAnalyticsStats, h1]
  · simp only [moodAnalyticsStats, h1, List.foldl_cons]
    calc m ≤ max 0 m := le_max_right 0 m
    _ ≤ (moodScoresOf entries).foldl max (max 0 m) := le_foldl_max _ _

/-- C5 amended witness: the theorem at a singleton synthetic entry of mood 5. -/
theorem c5_all_nonnull_scores_counted_check :
    moodScoresOf [⟨"u", "TASK_COMPLETED: y", some 5, 0⟩] =
      5 :: moodScoresOf [] ∧
    (moodAnalyticsStats [⟨"u", "TASK_COMPLETED: y", some 5, 0⟩]).totalEntries =
      (moodAnalyticsStats []).totalEntries + 1 ∧
    (5 : Int) ≤ (moodAnalyticsStats [⟨"u", "TASK_COMPLETED: y", some 5, 0⟩]).highest :=
  c5_all_nonnull_scores_counted [] ⟨"u", "TASK_COMPLETED: y", some 5, 0⟩ 5 rfl rfl

/-- C6: for an owned task, the update appends exactly one journal entry — the
`TASK_COMPLETED:`-prefixed, mood-8 marker — precisely when the task's
completed flag transitions from false to a strict true in the update body; an
update on an already-completed task, or one not setting completed to true,
leaves the journal unchanged. -/
theorem c6_completion_marker_entry
    (store : TaskStore) (journal : List JournalEntry) (user id : String)
    (p : TaskPatch) (now : Int) (t : Task)
    (hf : findTaskMem store id (some user) = some t) :
    ((t.completed = false ∧ p.completed = some true) →
      (taskUpdateRoute store journal user id p now).journal =
        journal ++ [taskDoneEntry user ((updateTaskMem store id p).fst.getD t).title now] ∧
      isSyntheticEntry
        (taskDoneEntry user ((updateTaskMem store id p).fst.getD t).title now) = true ∧
      (taskDoneEntry user ((updateTaskMem store id p).fst.getD t).title now).mood_score =
        some 8) ∧
    ((t.completed = true ∨ p.completed ≠ some true) →
      (taskUpdateRoute store journal user id p now).journal = journal) := by
  constructor
  · rintro ⟨hc, hp⟩
    refine ⟨?_, taskDoneEntry_synthetic user _ now, rfl⟩
    simp [taskUpdateRoute, hf, hc, hp]
  · rintro (hc | hp)
    · simp [taskUpdateRoute, hf, hc]
    · have hb : (p.completed == some true) = false := beq_eq_false_iff_ne.mpr hp
      simp [taskUpdateRoute, hf, hb]

/-- C6 witness: the theorem at a one-task store whose task transitions to
completed. -/
theorem c6_completion_marker_entry_check :
    (taskUpdateRoute [("t1", ⟨"u", "ship", "", none, "medium", false, 0⟩)] []
        "u" "t1" { completed := some true } 5).journal =
      [] ++ [taskDoneEntry "u"
        ((updateTaskMem [("t1", ⟨"u", "ship", "", none, "medium", false, 0⟩)] "t1"
            { completed := some true }).fst.getD
          ⟨"u", "ship", "", none, "medium", false, 0⟩).title 5] :=
  ((c6_completion_marker_entry
      [("t1", ⟨"u", "ship", "", none, "medium", false, 0⟩)] [] "u" "t1"
      { completed := some true } 5 ⟨"u", "ship", "", none, "medium", false, 0⟩
      rfl).1 ⟨rfl, rfl⟩).1

/-- C10 amended: after a successful habit completion, the stored streak record
satisfies 1 ≤ current ≤ longest, and the stored longest is at least the longest
of the habit record the handler consulted — `findHabits({_id, user_id})[0]`,
which in the in-memory fallback is the session user's first habit and may
differ from the habit addressed by the route id. -/
theorem c10_streak_record_invariant
    (store : HabitStore) (user id : String) (notes : Option String) (today : Int)
    (h' : Habit)
    (hs : (completeHabitRoute store user id notes today).outcome = .ok (some h')) :
    1 ≤ h'.streak.current ∧ h'.streak.current ≤ h'.streak.longest ∧
    ∃ h0, (findHabitsMem store { idQ := some id, userQ := some user }).head? = some h0 ∧
      h0.streak.longest ≤ h'.streak.longest := by
  unfold completeHabitRoute at hs
  cases hfind : findHabitsMem store { idQ := some id, userQ := some user } with
  | nil =>
    rw [hfind] at hs
    exact absurd hs (by simp)
  | cons habit rest =>
    rw [hfind] at hs
    dsimp only at hs
    by_cases hdone : (habit.completions.any (fun c => c.date == today)) = true
    · rw [if_pos hdone] at hs
      exact absurd hs (by simp)
    · rw [if_neg hdone] at hs
      simp only [Except.ok.injEq] at hs
      unfold updateHabitMem at hs
      cases hkv : store.find? (fun kv => kv.fst == id) with
      | none =>
        rw [hkv] at hs
        exact absurd hs (by simp)
      | some kv =>
        rw [hkv] at hs
        simp only [Option.some.injEq] at hs
        subst hs
        refine ⟨?_, ?_, habit, rfl, ?_⟩
        · simp only [applyHabitPatch, Option.getD_some]
          exact_mod_cast habitStreakOf_pos _
        · simp only [applyHabitPatch, Option.getD_some]
          exact le_max_left _ _
        · simp only [applyHabitPatch, Option.getD_some]
          exact le_max_right _ _

/-- C10 amended witness: the theorem at a one-habit store. -/
theorem c10_streak_record_invariant_check :
    1 ≤ (Habit.streak ⟨"u", "water", ⟨1, 1⟩, [⟨10, none⟩], true⟩).current ∧
    (Habit.streak ⟨"u", "water", ⟨1, 1⟩, [⟨10, none⟩], true⟩).current ≤
      (Habit.streak ⟨"u", "water", ⟨1, 1⟩, [⟨10, none⟩], true⟩).longest ∧
    ∃ h0, (findHabitsMem [("h1", ⟨"u", "water", ⟨0, 0⟩, [], true⟩)]
        { idQ := some "h1", userQ := some "u" }).head? = some h0 ∧
      h0.streak.longest ≤ (Habit.streak ⟨"u", "water", ⟨1, 1⟩, [⟨10, none⟩], true⟩).longest :=
  c10_streak_record_invariant [("h1", ⟨"u", "water", ⟨0, 0⟩, [], true⟩)]
    "u" "h1" none 10 ⟨"u", "water", ⟨1, 1⟩, [⟨10, none⟩], true⟩ rfl

/-- C7 amended: the dashboard's upcoming list holds at most 5 tasks; each of
them is not completed and has a due date at most 3 days in the future (overdue
tasks qualify as well — there is no lower bound); the list ascends by due
date; and every qualifying task is listed unless the 5-element cap is full. -/
theorem c7_upcoming_list_shape (now : Int) (tasks : List Task) :
    (upcomingTasksOf now tasks).length ≤ 5 ∧
    (∀ t ∈ upcomingTasksOf now tasks,
      t.completed = false ∧ ∃ d, t.due_date = some d ∧ d ≤ now + 3 * dayMs) ∧
    List.Pairwise (fun a b => dueKey a ≤ dueKey b) (upcomingTasksOf now tasks) ∧
    (∀ t ∈ tasks, upcomingPred now t = true →
      t ∈ upcomingTasksOf now tasks ∨ (upcomingTasksOf now tasks).length = 5) := by
  refine ⟨?_, ?_, ?_, ?_⟩
  · calc (upcomingTasksOf now tasks).length
        = min 5 ((sortTasksByDue tasks).filter (upcomingPred now)).length :=
          List.length_take 5 _
    _ ≤ 5 := min_le_left _ _
  · intro t ht
    have hmem := List.mem_of_mem_take ht
    have hpred := (List.mem_filter.mp hmem).2
    cases hdd : t.due_date with
    | none => rw [upcomingPred, hdd] at hpred; exact absurd hpred (by simp)
    | some d =>
      rw [upcomingPred, hdd] at hpred
      simp only [Bool.and_eq_true, decide_eq_true_eq, Bool.not_eq_true'] at hpred
      exact ⟨hpred.2, d, rfl, hpred.1⟩
  · have hsorted : List.Sorted (fun a b => dueKey a ≤ dueKey b) (sortTasksByDue tasks) :=
      List.sorted_insertionSort _ tasks
    have hsub : List.Sublist (upcomingTasksOf now tasks) (sortTasksByDue tasks) :=
      List.Sublist.trans (List.take_sublist 5 _) (List.filter_sublist _)
    exact hsorted.sublist hsub
  · intro t ht hpred
    have hmem : t ∈ sortTasksByDue tasks :=
      ((List.perm_insertionSort _ tasks).mem_iff).mpr ht
    have hfil : t ∈ (sortTasksByDue tasks).filter (upcomingPred now) :=
      List.mem_filter.mpr ⟨hmem, hpred⟩
    by_cases hin : t ∈ upcomingTasksOf now tasks
    · exact Or.inl hin
    · refine Or.inr ?_
      have hlen : 5 < ((sortTasksByDue tasks).filter (upcomingPred now)).length := by
        by_contra hle
        push_neg at hle
        rw [upcomingTasksOf, List.take_of_length_le hle] at hin
        exact hin hfil
      rw [upcomingTasksOf, List.length_take]
      exact Nat.min_eq_left (Nat.le_of_lt hlen)

/-- C7 amended witness: the theorem at the empty task list. -/
theorem c7_upcoming_list_shape_check : (upcomingTasksOf 0 []).length ≤ 5 :=
  (c7_upcoming_list_shape 0 []).1

end FriendAI
